import Mathlib

set_option linter.unusedVariables false

/-!
# Verification of the amplpy `AMPL` facade (`src/amplpy/ampl.py`)

This file gives a shallow embedding of the Python facade class `AMPL` from
`src/amplpy/ampl.py` and of the spec-level session/facade design it realises,
and proves (or refutes) the frozen claims about it.

The Python layer is a thin wrapper over a native engine object (`self._impl`).
We model each wrapper method as a pure function that returns the list of
engine calls it performs, the (Python-side) session state it leaves behind,
and its outcome (a returned value or a raised exception).

Python runtime-type facts that matter here are modelled explicitly; in
particular, `bool` is a subclass of `int` in Python, so
`isinstance(True, int)` is `True`.
-/

/-- The Python runtime values relevant to the option-dispatch code:
booleans, integers, floats (modelled as rationals), strings, `None`,
and an opaque "other object" covering every remaining Python type. -/
inductive PyVal where
  | pyBool (b : Bool)
  | pyInt (n : Int)
  | pyFloat (q : Rat)
  | pyStr (s : String)
  | pyNone
  | pyOther (tag : String)
  deriving DecidableEq, Repr

/-- `isinstance(v, int)` in Python. `bool` is a subclass of `int`, so a
Python boolean satisfies this check. -/
def isinstance_int : PyVal → Bool
  | .pyBool _ => true
  | .pyInt _ => true
  | _ => false

/-- `isinstance(v, float)` in Python. -/
def isinstance_float : PyVal → Bool
  | .pyFloat _ => true
  | _ => false

/-- `isinstance(v, bool)` in Python. -/
def isinstance_bool : PyVal → Bool
  | .pyBool _ => true
  | _ => false

/-- `isinstance(v, basestring)` in Python 2. -/
def isinstance_basestring : PyVal → Bool
  | .pyStr _ => true
  | _ => false

/-- The calls an `AMPL` method can place on the underlying engine object
`self._impl`. Each constructor records one engine entry point together with
the arguments forwarded to it. -/
inductive EngineCall where
  | setIntOptionCall (name : String) (v : PyVal)
  | setDblOptionCall (name : String) (v : PyVal)
  | setBoolOptionCall (name : String) (v : PyVal)
  | setStringOptionCall (name : String) (v : PyVal)
  | getOptionCall (name : String)
  | evalCall (stmts : String)
  | readCall (filename : String)
  | readDataCall (filename : String)
  | solveCall
  | isRunningCall
  | isBusyCall
  | closeCall
  deriving DecidableEq, Repr

/-- The exceptions the Python layer itself can raise (engine-side failures
are modelled separately). `typeError` is Python's `TypeError`, the
realisation of the spec's `UnsupportedOptionTypeError`;
`notImplementedError` is Python's `NotImplementedError`. -/
inductive PyError where
  | typeError
  | notImplementedError
  deriving DecidableEq, Repr

/-- The Python-side state an `AMPL` object owns besides the engine handle:
the two handler references (`self._outputhandler`, `self._errorhandler`).
Handlers are modelled as opaque tags. -/
structure PyState where
  outputhandler : Option String
  errorhandler : Option String
  deriving DecidableEq, Repr

/-- The observable effect of one facade method invocation: the engine calls
it performed in order, the Python-side state it left, and its outcome
(a value, or the exception it raised). -/
structure StepResult (α : Type) where
  calls : List EngineCall
  state : PyState
  outcome : Except PyError α
  deriving Repr

/-- `AMPL.setOption` from `src/amplpy/ampl.py` lines 342-365, branch for
branch.  The source tests `isinstance(value, int)`, then
`isinstance(value, float)` (whose branch calls `self._impl.setIntOption`),
then `isinstance(value, bool)`, then `isinstance(value, basestring)`,
and otherwise raises `TypeError`. -/
def setOption (st : PyState) (name : String) (value : PyVal) : StepResult Unit :=
  if isinstance_int value then
    ⟨[.setIntOptionCall name value], st, .ok ()⟩
  else if isinstance_float value then
    ⟨[.setIntOptionCall name value], st, .ok ()⟩
  else if isinstance_bool value then
    ⟨[.setBoolOptionCall name value], st, .ok ()⟩
  else if isinstance_basestring value then
    ⟨[.setStringOptionCall name value], st, .ok ()⟩
  else
    ⟨[], st, .error .typeError⟩

/-- `AMPL.isRunning`: the source calls `self._impl.isRunning()` but has no
`return` statement, so the Python function returns `None` whatever boolean
the engine reported. `engineAnswer` is the boolean the engine would return. -/
def isRunning (st : PyState) (engineAnswer : Bool) : StepResult PyVal :=
  ⟨[.isRunningCall], st, .ok .pyNone⟩

/-- `AMPL.isBusy`: the source calls `self._impl.isBusy()` but has no
`return` statement, so the Python function returns `None` whatever boolean
the engine reported. -/
def isBusy (st : PyState) (engineAnswer : Bool) : StepResult PyVal :=
  ⟨[.isBusyCall], st, .ok .pyNone⟩

/-- `AMPL.readAsync`: the body is `raise NotImplementedError`. -/
def readAsync (st : PyState) (filename : String) (callback : String) :
    StepResult Unit :=
  ⟨[], st, .error .notImplementedError⟩

/-- `AMPL.readDataAsync`: the body is `raise NotImplementedError`. -/
def readDataAsync (st : PyState) (filename : String) (callback : String) :
    StepResult Unit :=
  ⟨[], st, .error .notImplementedError⟩

/-- `AMPL.evalAsync`: the body is `raise NotImplementedError`. -/
def evalAsync (st : PyState) (amplstatements : String) (callback : String) :
    StepResult Unit :=
  ⟨[], st, .error .notImplementedError⟩

/-- `AMPL.solveAsync`: the body is `raise NotImplementedError`. -/
def solveAsync (st : PyState) (callback : String) : StepResult Unit :=
  ⟨[], st, .error .notImplementedError⟩

/-- `AMPL.interrupt`: the body is `raise NotImplementedError`. -/
def interrupt (st : PyState) : StepResult Unit :=
  ⟨[], st, .error .notImplementedError⟩

/-- `AMPL.display`: the body is `raise NotImplementedError`. -/
def display (st : PyState) (amplExpressions : List String) : StepResult Unit :=
  ⟨[], st, .error .notImplementedError⟩

/-- `AMPL.getEntity` (kind-agnostic lookup): the body is
`raise NotImplementedError`. -/
def getEntity (st : PyState) (name : String) : StepResult Unit :=
  ⟨[], st, .error .notImplementedError⟩

/-! ## The string reinterpretation performed by `AMPL.getOption`

`getOption` applies Python's `int(value)` and then `float(value)` to the
string the engine stored, falling back to the raw string.  We model the
two builtin string conversions on their decimal forms (Python also accepts
exponent notation for `float`; the claims only exercise plain decimals). -/

/-- Value of a decimal digit list, `none` if some character is not a digit.
Models the digit scan inside Python's `int(str)`. -/
def parseDigitsAux : List Char → Nat → Option Nat
  | [], acc => some acc
  | c :: cs, acc =>
    if c.isDigit then parseDigitsAux cs (acc * 10 + (c.toNat - 48)) else none

/-- A nonempty all-digit character list, as a natural number. -/
def parseDigits : List Char → Option Nat
  | [] => none
  | c :: cs => parseDigitsAux (c :: cs) 0

/-- Leading and trailing spaces stripped, as Python's `int`/`float`
string conversions do. -/
def stripSpaces (cs : List Char) : List Char :=
  ((cs.dropWhile (· = ' ')).reverse.dropWhile (· = ' ')).reverse

/-- Sign handling shared by the two conversions. -/
def signSplit : List Char → Bool × List Char
  | '-' :: cs => (true, cs)
  | '+' :: cs => (false, cs)
  | cs => (false, cs)

/-- Python's `int(s)` for a string argument: optional surrounding spaces,
optional sign, then a nonempty digit string; raises `ValueError`
(here: `none`) otherwise. -/
def pyParseInt (s : String) : Option Int :=
  let (neg, body) := signSplit (stripSpaces s.toList)
  (parseDigits body).map (fun n => if neg then -(n : Int) else (n : Int))

/-- Splits a character list at its first dot, if any. -/
def splitDot : List Char → List Char × Option (List Char)
  | [] => ([], none)
  | '.' :: cs => ([], some cs)
  | c :: cs =>
    let (a, b) := splitDot cs
    (c :: a, b)

/-- Digit-list value where the empty list counts as zero (the digits on one
side of the dot may be absent, as in `"1."` or `".5"`). -/
def parseDigitsOrEmpty : List Char → Option Nat
  | [] => some 0
  | c :: cs => parseDigits (c :: cs)

/-- Unsigned part of Python's `float(s)` on decimal forms: digits with an
optional dot, at least one digit present overall. The result is the exact
rational the decimal denotes. -/
def pyParseFloatUnsigned (cs : List Char) : Option Rat :=
  match splitDot cs with
  | (ip, none) => (parseDigits ip).map (fun n => (n : Rat))
  | (ip, some fp) =>
    if ip.isEmpty && fp.isEmpty then none
    else
      match parseDigitsOrEmpty ip, parseDigitsOrEmpty fp with
      | some n, some m => some ((n : Rat) + (m : Rat) / ((10 : Rat) ^ fp.length))
      | _, _ => none

/-- Python's `float(s)` for a plain decimal string argument: optional
surrounding spaces, optional sign, digits with an optional dot. -/
def pyParseFloat (s : String) : Option Rat :=
  let (neg, body) := signSplit (stripSpaces s.toList)
  (pyParseFloatUnsigned body).map (fun q => if neg then -q else q)

/-- The `try: return int(value) / except: try: return float(value) /
except: return value` ladder of `AMPL.getOption` (lines 385-391). -/
def reinterpretOptionValue (value : String) : PyVal :=
  match pyParseInt value with
  | some n => .pyInt n
  | none =>
    match pyParseFloat value with
    | some q => .pyFloat q
    | none => .pyStr value

/-- `AMPL.getOption` (lines 367-391). `engineOpt` is what
`self._impl.getOption(name).value()` does: either raises a `RuntimeError`
(modelled `.error ()`) or yields the stored option string. On the error the
method returns `None`; on success it reinterprets the stored string. -/
def getOption (st : PyState) (engineOpt : Except Unit String) (name : String) :
    StepResult PyVal :=
  ⟨[.getOptionCall name], st,
    match engineOpt with
    | .error _ => .ok .pyNone
    | .ok value => .ok (reinterpretOptionValue value)⟩

/-! ## The SessionFacade / LazyEntityCollection design

The caching and lifecycle machinery the spec describes lives in the native
engine layer of this repository (the `amplpython` extension wrapped by
`ampl.py`), not in the Python file under `src/`.  The definitions in this
section are therefore modelled from the spec (sections 3, 4.3 and 4.4), as
their doc comments state, and the claims about them are settled against
these models. -/

/-- The five entity kinds of the facade. -/
inductive EntityKind where
  | varKind
  | conKind
  | objKind
  | setKind
  | paramKind
  deriving DecidableEq, Repr

/-- Modelled from the spec: `LazyEntityCollection` (section 3), the
name-keyed cached view over all entities of one kind. `cache` maps entity
names to engine handles (opaque, modelled as `Nat`); `populated` records
whether `cache` currently mirrors the engine. The missing code is the
collection class of the native `amplpython` layer. -/
structure LazyEntityCollection where
  cache : List (String × Nat)
  populated : Bool
  deriving DecidableEq, Repr

/-- First value bound to `name` in an association list. -/
def alistLookup : List (String × Nat) → String → Option Nat
  | [], _ => none
  | (k, v) :: rest, name => if k = name then some v else alistLookup rest name

/-- Modelled from the spec: `invalidate()` (section 4.3) clears the cache
and resets `populated` to `false`. -/
def LazyEntityCollection.invalidate (c : LazyEntityCollection) :
    LazyEntityCollection :=
  ⟨[], false⟩

/-- Modelled from the spec: `get(name)` (section 4.3). If populated, serve
from the cache; otherwise trigger a full fetch of the engine's entity
listing for the kind, populate the whole cache, then serve. Returns the
collection afterwards and the lookup result. -/
def LazyEntityCollection.get (c : LazyEntityCollection)
    (engineListing : List (String × Nat)) (name : String) :
    LazyEntityCollection × Option Nat :=
  if c.populated then (c, alistLookup c.cache name)
  else (⟨engineListing, true⟩, alistLookup engineListing name)

/-- Modelled from the spec: the per-kind collections a `SessionFacade`
owns (section 3, `collections` field, one per entity kind). -/
structure FacadeState where
  vars : LazyEntityCollection
  cons : LazyEntityCollection
  objs : LazyEntityCollection
  sets : LazyEntityCollection
  params : LazyEntityCollection
  deriving DecidableEq, Repr

/-- Invalidate all five collections, as a declaration-mutating operation
must (spec section 4.4). -/
def invalidateAll (f : FacadeState) : FacadeState :=
  ⟨f.vars.invalidate, f.cons.invalidate, f.objs.invalidate,
   f.sets.invalidate, f.params.invalidate⟩

/-- The facade operations of the spec's invalidation table (section 4.4)
together with per-kind entity access. -/
inductive FacadeOp where
  | evalOp (stmts : String)
  | readOp (filename : String)
  | readDataOp (filename : String)
  | resetOp
  | setOptionOp (name : String) (v : PyVal)
  | getOptionOp (name : String)
  | setDataOp
  | solveOp
  | getValueOp (expr : String)
  | entityAccessOp (kind : EntityKind) (name : String)
  deriving DecidableEq, Repr

/-- Whether an operation can add, remove or redefine entities
(spec section 4.4, "Mutates declarations?" column). -/
def mutatesDeclarations : FacadeOp → Bool
  | .evalOp _ => true
  | .readOp _ => true
  | .readDataOp _ => true
  | .resetOp => true
  | _ => false

/-- Modelled from the spec: the effect of each facade operation on the
per-kind collections, operation by operation, following the invalidation
table of section 4.4: statement evaluation, file reads and resets
invalidate every collection; option access, data pushes, solves and value
reads leave them alone. The missing code is the invalidation logic of the
native `amplpython` layer. -/
def applyFacadeOp (f : FacadeState) : FacadeOp → FacadeState
  | .evalOp _ => invalidateAll f
  | .readOp _ => invalidateAll f
  | .readDataOp _ => invalidateAll f
  | .resetOp => invalidateAll f
  | .setOptionOp _ _ => f
  | .getOptionOp _ => f
  | .setDataOp => f
  | .solveOp => f
  | .getValueOp _ => f
  | .entityAccessOp _ _ => f

/-- The engine lifecycle of spec section 4.4: the session is `running`
after construction and `closed` after `close()`. (`Created→Running`
happens inside the constructor, so an observable session is never in the
`Created` state.) -/
inductive Lifecycle where
  | running
  | closed
  deriving DecidableEq, Repr

/-- Modelled from the spec: a session is its lifecycle state plus its
facade state (section 4.4). -/
structure Session where
  life : Lifecycle
  facade : FacadeState
  deriving DecidableEq, Repr

/-- A session-level operation: a facade operation, or `close()`. -/
inductive SessionOp where
  | facadeOp (op : FacadeOp)
  | closeOp
  deriving DecidableEq, Repr

/-- Whether an operation forwards to the engine and so requires a running
engine (every facade operation does; `close` is idempotent and allowed on
a closed session). -/
def isEngineForwarding : SessionOp → Bool
  | .facadeOp _ => true
  | .closeOp => false

/-- The facade-level failure raised when an engine-forwarding operation is
attempted on a closed session (spec section 7). -/
inductive FacadeError where
  | engineNotRunningError
  deriving DecidableEq, Repr

/-- Modelled from the spec: one step of the session state machine
(section 4.4). `close` moves to `closed` and stays there; an
engine-forwarding operation on a closed session fails with
`EngineNotRunningError`; on a running session it applies the facade
effect. The missing code is the lifecycle guard of the native
`amplpython` layer. -/
def stepSession (s : Session) : SessionOp → Except FacadeError Session
  | .closeOp => .ok { s with life := .closed }
  | .facadeOp op =>
    match s.life with
    | .closed => .error .engineNotRunningError
    | .running => .ok { s with facade := applyFacadeOp s.facade op }

/-! ## TabularFrame round trip

`AMPL.getData` builds a `DataFrame` from the engine's display output and
`AMPL.setData` pushes a frame's rows back into the engine; both directions
are performed by the native layer.  We model an entity's engine-resident
indexed values as an association list from index tuples to values with
distinct index tuples (the spec's section 3 frame invariant). -/

/-- An AMPL cell value: a number (doubles modelled as rationals) or a
string. -/
inductive CellVal where
  | num (q : Rat)
  | str (s : String)
  deriving DecidableEq, Repr

/-- An index tuple: the values of the indexing columns of one row. -/
abbrev IndexTuple : Type := List CellVal

/-- Modelled from the spec: `TabularFrame` (section 3): ordered column
names and ordered rows of (index tuple, value). -/
structure TabularFrame where
  columnNames : List String
  rows : List (IndexTuple × CellVal)
  deriving DecidableEq, Repr

/-- An entity's engine-resident data: its indexed values, one value per
index tuple. -/
abbrev EntityData : Type := List (IndexTuple × CellVal)

/-- The engine-resident value at an index tuple. -/
def lookupIdx : EntityData → IndexTuple → Option CellVal
  | [], _ => none
  | (j, w) :: rest, i => if j = i then some w else lookupIdx rest i

/-- Assign one value at one index tuple: replace the existing entry, or
append a new one. -/
def setVal : EntityData → IndexTuple → CellVal → EntityData
  | [], i, v => [(i, v)]
  | (j, w) :: rest, i, v =>
    if j = i then (i, v) :: rest else (j, w) :: setVal rest i v

/-- Modelled from the spec: `queryToFrame` (section 6) / `AMPL.getData`:
the frame built from an entity's current engine data, rows in engine
order. -/
def queryToFrame (cols : List String) (d : EntityData) : TabularFrame :=
  ⟨cols, d⟩

/-- Modelled from the spec: `assignFrame` (section 6) / `AMPL.setData`:
push every row of the frame into the entity's engine-resident data, in
row order. -/
def assignFrame (d : EntityData) (f : TabularFrame) : EntityData :=
  f.rows.foldl (fun acc r => setVal acc r.1 r.2) d

/-- The index tuples of an entity's data. -/
def dataKeys (d : EntityData) : List IndexTuple := d.map Prod.fst

/-- Assigning a value an entity already holds at an index tuple it already
has leaves the data untouched (index tuples distinct). -/
theorem setVal_mem_self : ∀ (d : EntityData) (i : IndexTuple) (v : CellVal),
    (dataKeys d).Nodup → (i, v) ∈ d → setVal d i v = d
  | [], i, v, _, hm => absurd hm (List.not_mem_nil _)
  | (j, w) :: rest, i, v, hnd, hm => by
    simp only [dataKeys, List.map_cons, List.nodup_cons] at hnd
    by_cases hji : j = i
    · subst hji
      rcases List.mem_cons.mp hm with heq | hmem
      · cases heq
        simp [setVal]
      · exact absurd (List.mem_map_of_mem Prod.fst hmem) hnd.1
    · rcases List.mem_cons.mp hm with heq | hmem
      · cases heq
        exact absurd rfl hji
      · simp only [setVal, if_neg hji]
        rw [setVal_mem_self rest i v hnd.2 hmem]

/-- Pushing any list of rows the entity already holds, in any order,
leaves the data untouched (index tuples distinct). -/
theorem foldl_setVal_sublist : ∀ (rows : List (IndexTuple × CellVal))
    (d : EntityData), (dataKeys d).Nodup → (∀ r ∈ rows, r ∈ d) →
    rows.foldl (fun acc r => setVal acc r.1 r.2) d = d
  | [], d, _, _ => rfl
  | r :: rows, d, hnd, hsub => by
    have hr : r ∈ d := hsub r (List.mem_cons_self r rows)
    have h1 : setVal d r.1 r.2 = d := by
      have := setVal_mem_self d r.1 r.2 hnd hr
      simpa using this
    simp only [List.foldl_cons, h1]
    exact foldl_setVal_sublist rows d hnd (fun x hx => hsub x (List.mem_cons_of_mem r hx))

/-! ## The claims -/

/-- Claim C1: the spec says a floating-point value is routed through the
engine's floating-point setter.  The code's float branch
(`elif isinstance(value, float):`, line 358-359) instead calls
`self._impl.setIntOption` — evaluating `setOption` at a float shows the
integer setter being called. -/
theorem claim_C1_setOption_float_routed_to_int_setter :
    setOption ⟨none, none⟩ "solver_precision" (.pyFloat (3 / 2)) =
      ⟨[.setIntOptionCall "solver_precision" (.pyFloat (3 / 2))],
       ⟨none, none⟩, .ok ()⟩ := rfl

/-- Claim C2: the spec says a boolean value is routed through the engine's
boolean setter.  In Python `bool` is a subclass of `int`, so `True`
satisfies the first test `isinstance(value, int)` (line 356) and is routed
to `self._impl.setIntOption`; the `isinstance(value, bool)` branch on
line 360 is unreachable.  Evaluating `setOption` at `True` shows the
integer setter being called. -/
theorem claim_C2_setOption_bool_routed_to_int_setter :
    setOption ⟨none, none⟩ "presolve" (.pyBool true) =
      ⟨[.setIntOptionCall "presolve" (.pyBool true)],
       ⟨none, none⟩, .ok ()⟩ := rfl

/-- Claim C3: after any declaration-mutating operation (eval, read,
readData, reset) every per-kind lazy collection is unpopulated with a
cleared cache, so its next access re-fetches from the engine; after any
non-mutating operation (setOption, getOption, setData, solve, getValue)
every collection's populated state is unchanged. -/
theorem claim_C3_lazy_collection_invalidation (f : FacadeState)
    (op : FacadeOp) (listing : List (String × Nat)) (name : String) :
    (mutatesDeclarations op = true →
      applyFacadeOp f op =
        ⟨⟨[], false⟩, ⟨[], false⟩, ⟨[], false⟩, ⟨[], false⟩, ⟨[], false⟩⟩) ∧
    (mutatesDeclarations op = false →
      (applyFacadeOp f op).vars.populated = f.vars.populated ∧
      (applyFacadeOp f op).cons.populated = f.cons.populated ∧
      (applyFacadeOp f op).objs.populated = f.objs.populated ∧
      (applyFacadeOp f op).sets.populated = f.sets.populated ∧
      (applyFacadeOp f op).params.populated = f.params.populated) ∧
    (∀ c : LazyEntityCollection, c.populated = false →
      (c.get listing name).2 = alistLookup listing name) := by
  refine ⟨?_, ?_, ?_⟩
  · intro h
    cases op <;> simp_all [applyFacadeOp, mutatesDeclarations, invalidateAll,
      LazyEntityCollection.invalidate]
  · intro h
    cases op <;> simp_all [applyFacadeOp, mutatesDeclarations]
  · intro c hc
    simp [LazyEntityCollection.get, hc]

/-- Witness for C3, at a session whose variable collection is populated:
an `eval` empties every collection, a `solve` leaves the populated flag,
and an unpopulated collection serves its next access from the engine
listing. -/
theorem claim_C3_lazy_collection_invalidation_witness :
    applyFacadeOp
        ⟨⟨[("x", 1)], true⟩, ⟨[], true⟩, ⟨[], true⟩, ⟨[], true⟩, ⟨[], true⟩⟩
        (.evalOp "var z;") =
      ⟨⟨[], false⟩, ⟨[], false⟩, ⟨[], false⟩, ⟨[], false⟩, ⟨[], false⟩⟩ ∧
    (applyFacadeOp
        ⟨⟨[("x", 1)], true⟩, ⟨[], true⟩, ⟨[], true⟩, ⟨[], true⟩, ⟨[], true⟩⟩
        .solveOp).vars.populated =
      (⟨⟨[("x", 1)], true⟩, ⟨[], true⟩, ⟨[], true⟩, ⟨[], true⟩,
        ⟨[], true⟩⟩ : FacadeState).vars.populated ∧
    ((⟨[], false⟩ : LazyEntityCollection).get [("z", 7)] "z").2 =
      alistLookup [("z", 7)] "z" :=
  ⟨(claim_C3_lazy_collection_invalidation _ (.evalOp "var z;") [] "x").1 rfl,
   ((claim_C3_lazy_collection_invalidation _ .solveOp [] "x").2.1 rfl).1,
   (claim_C3_lazy_collection_invalidation
      ⟨⟨[], false⟩, ⟨[], false⟩, ⟨[], false⟩, ⟨[], false⟩, ⟨[], false⟩⟩
      .solveOp [("z", 7)] "z").2.2 ⟨[], false⟩ rfl⟩

/-- Claim C4: `getOption` returns the engine's stored string reinterpreted
by first attempting an integer parse, then a floating-point parse, and
otherwise returns the raw string; in particular a stored `"10"` comes
back as the integer `10`, `"1.5"` as the float `1.5`, and `"gurobi"` as
the string `"gurobi"`. -/
theorem claim_C4_getOption_reinterpretation (st : PyState) (name s : String) :
    getOption st (.ok s) name =
      ⟨[.getOptionCall name], st, .ok (reinterpretOptionValue s)⟩ ∧
    (∀ n : Int, pyParseInt s = some n →
      reinterpretOptionValue s = .pyInt n) ∧
    (∀ q : Rat, pyParseInt s = none → pyParseFloat s = some q →
      reinterpretOptionValue s = .pyFloat q) ∧
    (pyParseInt s = none → pyParseFloat s = none →
      reinterpretOptionValue s = .pyStr s) ∧
    reinterpretOptionValue "10" = .pyInt 10 ∧
    reinterpretOptionValue "1.5" = .pyFloat (3 / 2) ∧
    reinterpretOptionValue "gurobi" = .pyStr "gurobi" := by
  refine ⟨rfl, ?_, ?_, ?_, by decide, ?_, by decide⟩
  · intro n hn
    simp [reinterpretOptionValue, hn]
  · intro q h1 h2
    simp [reinterpretOptionValue, h1, h2]
  · intro h1 h2
    simp [reinterpretOptionValue, h1, h2]
  · have h1 : pyParseInt "1.5" = none := by decide
    have h2 : pyParseFloat "1.5" =
        some ((1 : Rat) + (5 : Rat) / (10 : Rat) ^ (1 : Nat)) := rfl
    simp [reinterpretOptionValue, h1, h2]
    norm_num

/-- Witness for C4: the branch statements applied at the concrete stored
strings `"42"`, `"2.5"` and `"cplex"`. -/
theorem claim_C4_getOption_reinterpretation_witness :
    reinterpretOptionValue "42" = .pyInt 42 ∧
    reinterpretOptionValue "2.5" = .pyFloat (5 / 2) ∧
    reinterpretOptionValue "cplex" = .pyStr "cplex" :=
  ⟨(claim_C4_getOption_reinterpretation ⟨none, none⟩ "solver" "42").2.1
      42 (by decide),
   (claim_C4_getOption_reinterpretation ⟨none, none⟩ "solver" "2.5").2.2.1
      (5 / 2) (by decide)
      (by
        have h : pyParseFloat "2.5" =
            some ((2 : Rat) + (5 : Rat) / (10 : Rat) ^ (1 : Nat)) := rfl
        rw [h]
        norm_num),
   (claim_C4_getOption_reinterpretation ⟨none, none⟩ "solver"
      "cplex").2.2.2.1 (by decide) (by decide)⟩

/-- Claim C5: on a closed session every engine-forwarding operation fails
with `EngineNotRunningError`, and no operation brings a closed session
back to the running state. -/
theorem claim_C5_closed_session_rejects_ops (s : Session)
    (h : s.life = .closed) (op : SessionOp) :
    (isEngineForwarding op = true →
      stepSession s op = .error .engineNotRunningError) ∧
    (∀ s2 : Session, stepSession s op = .ok s2 → s2.life = .closed) := by
  cases op with
  | facadeOp op =>
    constructor
    · intro _
      simp [stepSession, h]
    · intro s2 h2
      simp [stepSession, h] at h2
  | closeOp =>
    constructor
    · intro h2
      simp [isEngineForwarding] at h2
    · intro s2 h2
      simp only [stepSession, Except.ok.injEq] at h2
      subst h2
      rfl

/-- Witness for C5: a closed session rejects a `solve` and stays closed
under a further `close`. -/
theorem claim_C5_closed_session_rejects_ops_witness :
    stepSession
        ⟨.closed, ⟨⟨[], false⟩, ⟨[], false⟩, ⟨[], false⟩, ⟨[], false⟩,
          ⟨[], false⟩⟩⟩ (.facadeOp .solveOp) =
      .error .engineNotRunningError ∧
    ∀ s2 : Session,
      stepSession
          ⟨.closed, ⟨⟨[], false⟩, ⟨[], false⟩, ⟨[], false⟩, ⟨[], false⟩,
            ⟨[], false⟩⟩⟩ .closeOp = .ok s2 →
        s2.life = .closed :=
  ⟨(claim_C5_closed_session_rejects_ops _ rfl (.facadeOp .solveOp)).1 rfl,
   (claim_C5_closed_session_rejects_ops _ rfl .closeOp).2⟩

/-- Claim C6: a frame built from an entity's current engine-resident data
(`getData`), assigned back unchanged (`setData`), leaves the
engine-resident values identical — given the frame invariant that index
tuples are distinct. -/
theorem claim_C6_data_roundtrip (cols : List String) (d : EntityData)
    (h : (dataKeys d).Nodup) :
    assignFrame d (queryToFrame cols d) = d :=
  foldl_setVal_sublist d d h (fun r hr => hr)

/-- Witness for C6: the round trip at a concrete two-row entity. -/
theorem claim_C6_data_roundtrip_witness :
    assignFrame
        [([CellVal.num 1], CellVal.num 10), ([CellVal.num 2], CellVal.str "a")]
        (queryToFrame ["x"]
          [([CellVal.num 1], CellVal.num 10),
           ([CellVal.num 2], CellVal.str "a")]) =
      [([CellVal.num 1], CellVal.num 10),
       ([CellVal.num 2], CellVal.str "a")] :=
  claim_C6_data_roundtrip ["x"] _ (by decide)

/-- Claim C7: an option value of a type with no engine setter (not int,
float, bool or string) makes `setOption` fail — source: `raise TypeError`,
the realisation of the spec's `UnsupportedOptionTypeError` — with no
engine setter called. -/
theorem claim_C7_setOption_unsupported_type (st : PyState) (name : String)
    (v : PyVal) (h1 : isinstance_int v = false)
    (h2 : isinstance_float v = false) (h3 : isinstance_bool v = false)
    (h4 : isinstance_basestring v = false) :
    setOption st name v = ⟨[], st, .error .typeError⟩ := by
  simp [setOption, h1, h2, h3, h4]

/-- Witness for C7: setting an option to Python `None`. -/
theorem claim_C7_setOption_unsupported_type_witness :
    setOption ⟨none, none⟩ "solver" .pyNone =
      ⟨[], ⟨none, none⟩, .error .typeError⟩ :=
  claim_C7_setOption_unsupported_type ⟨none, none⟩ "solver" .pyNone
    rfl rfl rfl rfl

/-- Claim C8: each asynchronous or advanced operation (`evalAsync`,
`readAsync`, `readDataAsync`, `solveAsync`, `interrupt`, `display`, and
the kind-agnostic `getEntity`) raises `NotImplementedError` with no
engine call and no session-state change. -/
theorem claim_C8_unimplemented_stubs (st : PyState)
    (fn cb stmts name : String) (exprs : List String) :
    evalAsync st stmts cb = ⟨[], st, .error .notImplementedError⟩ ∧
    readAsync st fn cb = ⟨[], st, .error .notImplementedError⟩ ∧
    readDataAsync st fn cb = ⟨[], st, .error .notImplementedError⟩ ∧
    solveAsync st cb = ⟨[], st, .error .notImplementedError⟩ ∧
    interrupt st = ⟨[], st, .error .notImplementedError⟩ ∧
    display st exprs = ⟨[], st, .error .notImplementedError⟩ ∧
    getEntity st name = ⟨[], st, .error .notImplementedError⟩ :=
  ⟨rfl, rfl, rfl, rfl, rfl, rfl, rfl⟩

/-- Claim C9: `isRunning()` and `isBusy()` forward the query to the engine
but return `None` whatever boolean the engine reports, because the source
has no `return` statement. -/
theorem claim_C9_isRunning_isBusy_return_none (st : PyState)
    (b1 b2 : Bool) :
    isRunning st b1 = ⟨[.isRunningCall], st, .ok .pyNone⟩ ∧
    isBusy st b2 = ⟨[.isBusyCall], st, .ok .pyNone⟩ :=
  ⟨rfl, rfl⟩

/-- Claim C10: when the engine's option lookup raises a `RuntimeError`,
`getOption` returns `None` instead of propagating the error, and the
Python-side session state is unchanged. -/
theorem claim_C10_getOption_engine_error_returns_none (st : PyState)
    (name : String) :
    getOption st (.error ()) name = ⟨[.getOptionCall name], st, .ok .pyNone⟩ :=
  rfl
